import Mathlib

/-!
# Verification of the booking lifecycle and payment-confirmation core

Shallow embedding of the booking core of the `nomadliving-stays` repository:

* `createBookingAction` (src/utils/actions.ts, duplicated in the booking
  actions module): cleanup of unpaid bookings, date validation, property
  lookup, three-clause date-conflict check, totals calculation, creation of
  a pending booking;
* the payment-session `POST` handler (the payment API route): rejects
  missing booking, already-paid booking and non-positive total before any
  provider request, and on success issues a checkout request carrying
  `bookingId` as metadata and `orderTotal * 100` as `unit_amount`;
* the payment-confirmation `GET` handler (src/app/api/confirm/route.ts):
  retrieves the session, extracts `metadata.bookingId`, requires status
  `"complete"`, looks up the booking, and performs a guarded idempotent
  update of `paymentStatus`.

Dates are embedded as integer day numbers, money amounts as integers.
-/

namespace NomadLiving

/-- A booking record, as stored by Prisma (`db.booking`).  Dates are day
numbers; `paymentStatus` is the payment flag (`false` = pending). -/
structure Booking where
  id : Nat
  profileId : Nat
  propertyId : Nat
  checkIn : Int
  checkOut : Int
  totalNights : Int
  orderTotal : Int
  paymentStatus : Bool
  deriving Repr, DecidableEq

/-- A property record; the booking core only reads its `price`. -/
structure Property where
  id : Nat
  price : Int
  deriving Repr, DecidableEq

/-- The booking store together with the property table, the shared state
the server actions read and write. -/
structure DB where
  bookings : List Booking
  properties : List Property
  nextId : Nat
  deriving Repr

/-- The three-clause date-conflict test of `createBookingAction`
(`OR` of three `AND` blocks over `checkIn`/`checkOut` comparisons),
applied to an existing interval `[eci, eco)` and a candidate `[ci, co)`:
`(eci <= ci && eco > ci) || (eci < co && eco >= co) || (eci >= ci && eco <= co)`. -/
def threeClauseConflict (eci eco ci co : Int) : Bool :=
  (decide (eci ≤ ci) && decide (eco > ci)) ||
  (decide (eci < co) && decide (eco ≥ co)) ||
  (decide (eci ≥ ci) && decide (eco ≤ co))

/-- The single half-open overlap test on `[eci, eco)` and `[ci, co)`:
`eci < co && ci < eco`. -/
def halfOpenOverlap (eci eco ci co : Int) : Bool :=
  decide (eci < co) && decide (ci < eco)

/-- The predicate the conflict `findFirst` query applies to each stored
booking: same property, paid, and three-clause date overlap with the
candidate range. -/
def bookingConflicts (propertyId : Nat) (ci co : Int) (b : Booking) : Bool :=
  b.propertyId == propertyId && b.paymentStatus &&
    threeClauseConflict b.checkIn b.checkOut ci co

/-- The fee-policy values of the Totals Calculator: fixed cleaning fee,
fixed service fee, and a tax percentage applied to subtotal plus fees. -/
structure FeePolicy where
  cleaning : Int
  service : Int
  taxPercent : Int
  deriving Repr, DecidableEq

/-- The fee breakdown returned by the Totals Calculator (the
`BookingTotals` interface of src/types/index.ts). -/
structure BookingTotals where
  totalNights : Int
  subTotal : Int
  cleaning : Int
  service : Int
  tax : Int
  orderTotal : Int
  deriving Repr, DecidableEq

/-- Modelled from the spec: the file `utils/calculateTotals.ts` is imported
by the booking actions but is not part of the available sources; only its
result type (`BookingTotals`, src/types/index.ts) and its call site are.
Per the spec's contract: `totalNights` is `checkOut - checkIn` in whole
days, `subTotal = totalNights * price`, `cleaning` and `service` are fixed
policy fees, `tax` is a policy percentage of subtotal plus fees, and
`orderTotal` is the sum of all of them. -/
def calculateTotals (policy : FeePolicy) (checkIn checkOut price : Int) :
    BookingTotals :=
  let totalNights := checkOut - checkIn
  let subTotal := totalNights * price
  let tax := (subTotal + policy.cleaning + policy.service) * policy.taxPercent / 100
  { totalNights := totalNights
    subTotal := subTotal
    cleaning := policy.cleaning
    service := policy.service
    tax := tax
    orderTotal := subTotal + policy.cleaning + policy.service + tax }

/-- Failure kinds of `createBookingAction` (`ValidationError`,
`NotFoundError` via `ensureExists`, `ConflictError`). -/
inductive BookingError where
  | validation
  | notFound
  | conflict
  deriving Repr, DecidableEq

/-- The cleanup `deleteMany` of `createBookingAction`: remove every booking
with `profileId = profileId` and `paymentStatus = false`, keep the rest. -/
def deleteUnpaidBookings (profileId : Nat) (bs : List Booking) : List Booking :=
  bs.filter (fun b => !(b.profileId == profileId && b.paymentStatus == false))

/-- The property lookup `db.property.findUnique({ where: { id } })`. -/
def findPropertyById (propertyId : Nat) (ps : List Property) : Option Property :=
  ps.find? (fun p => p.id == propertyId)

/-- The conflict query `db.booking.findFirst` of `createBookingAction`:
first stored booking for the property that is paid and whose dates pass
the three-clause overlap test against the candidate range. -/
def findConflictingBooking (propertyId : Nat) (ci co : Int) (bs : List Booking) :
    Option Booking :=
  bs.find? (bookingConflicts propertyId ci co)

/-- The booking lookup `db.booking.findUnique({ where: { id } })`. -/
def findBookingById (bookingId : Nat) (bs : List Booking) : Option Booking :=
  bs.find? (fun b => b.id == bookingId)

/-- `createBookingAction` (src/utils/actions.ts): delete the caller's
unpaid bookings, validate `checkOut > checkIn`, look up the property,
check for a date conflict with a paid booking, compute totals, and persist
a new pending (`paymentStatus = false`) booking.  Returns the updated
store and either the new booking's id or the failure kind. -/
def createBookingAction (policy : FeePolicy) (profileId propertyId : Nat)
    (checkIn checkOut : Int) (db : DB) : DB × Except BookingError Nat :=
  let db1 : DB := { db with bookings := deleteUnpaidBookings profileId db.bookings }
  if checkOut ≤ checkIn then
    (db1, .error .validation)
  else
    match findPropertyById propertyId db1.properties with
    | none => (db1, .error .notFound)
    | some property =>
      match findConflictingBooking propertyId checkIn checkOut db1.bookings with
      | some _ => (db1, .error .conflict)
      | none =>
        let t := calculateTotals policy checkIn checkOut property.price
        let nb : Booking :=
          { id := db1.nextId
            profileId := profileId
            propertyId := propertyId
            checkIn := checkIn
            checkOut := checkOut
            totalNights := t.totalNights
            orderTotal := t.orderTotal
            paymentStatus := false }
        ({ db1 with bookings := db1.bookings ++ [nb], nextId := db1.nextId + 1 },
          .ok nb.id)

/-- Failure kinds of the payment-session `POST` handler. -/
inductive PaymentApiError where
  | originMissing
  | bookingIdMissing
  | bookingNotFound
  | alreadyPaid
  | invalidTotal
  deriving Repr, DecidableEq

/-- The checkout-session request the `POST` handler sends to the payment
provider on its success path: `metadata: { bookingId }`, one line item
with `quantity: 1` and `unit_amount: orderTotal * 100`. -/
structure CheckoutRequest where
  metadataBookingId : Nat
  unitAmount : Int
  quantity : Nat
  deriving Repr, DecidableEq

/-- The payment-session `POST` handler up to the provider call: require an
origin header and a `bookingId`, load the booking, reject an already-paid
booking and a non-positive `orderTotal`; otherwise the result `.ok r` is
exactly the checkout request handed to the provider.  The handler issues
no write to the booking store. -/
def createPaymentSession (origin : Option String) (bookingId : Option Nat)
    (db : DB) : Except PaymentApiError CheckoutRequest :=
  match origin with
  | none => .error .originMissing
  | some _ =>
    match bookingId with
    | none => .error .bookingIdMissing
    | some bid =>
      match findBookingById bid db.bookings with
      | none => .error .bookingNotFound
      | some booking =>
        if booking.paymentStatus then .error .alreadyPaid
        else if booking.orderTotal ≤ 0 then .error .invalidTotal
        else .ok { metadataBookingId := booking.id
                   unitAmount := booking.orderTotal * 100
                   quantity := 1 }

/-- A checkout session as the confirm handler reads it back from the
provider: a `status` string and an optional `bookingId` in its metadata. -/
structure StripeSession where
  status : String
  metadataBookingId : Option Nat
  deriving Repr, DecidableEq

/-- The caller-visible outcome of the confirm handler: redirect to
`/bookings` (success) or to the payment-failed view (failure). -/
inductive ConfirmOutcome where
  | success
  | failure
  deriving Repr, DecidableEq

/-- The `db.booking.update({ where: { id }, data: { paymentStatus: true } })`
write of the confirm handler. -/
def setPaid (bookingId : Nat) (bs : List Booking) : List Booking :=
  bs.map (fun b => if b.id == bookingId then { b with paymentStatus := true } else b)

/-- The payment-confirmation `GET` handler (src/app/api/confirm/route.ts):
require a `session_id`, retrieve the session from the provider, extract
`metadata.bookingId`, require status `"complete"`, load the booking; if it
is already paid, redirect to success with no write; otherwise set
`paymentStatus` to `true` and redirect to success.  Every failure path
leaves the store untouched and yields the failure redirect. -/
def confirmPaymentGET (sessionId : Option String)
    (retrieve : String → Option StripeSession) (db : DB) : DB × ConfirmOutcome :=
  match sessionId with
  | none => (db, .failure)
  | some sid =>
    match retrieve sid with
    | none => (db, .failure)
    | some session =>
      match session.metadataBookingId with
      | none => (db, .failure)
      | some bookingId =>
        if session.status ≠ "complete" then (db, .failure)
        else
          match findBookingById bookingId db.bookings with
          | none => (db, .failure)
          | some booking =>
            if booking.paymentStatus then (db, .success)
            else
              ({ db with bookings := setPaid booking.id db.bookings }, .success)

/-- A paid sample booking for property 3 owned by profile 7, `[10, 15)`. -/
def sampleBookingPaid : Booking :=
  { id := 1, profileId := 7, propertyId := 3, checkIn := 10, checkOut := 15,
    totalNights := 5, orderTotal := 561, paymentStatus := true }

/-- An unpaid sample booking for property 3 owned by profile 7, `[20, 25)`. -/
def sampleBookingUnpaid : Booking :=
  { id := 2, profileId := 7, propertyId := 3, checkIn := 20, checkOut := 25,
    totalNights := 5, orderTotal := 500, paymentStatus := false }

/-- A sample store holding the two sample bookings and one property. -/
def sampleDB : DB :=
  { bookings := [sampleBookingPaid, sampleBookingUnpaid],
    properties := [{ id := 3, price := 100 }],
    nextId := 5 }

/-- A sample fee policy: cleaning 21, service 40, tax 10 percent. -/
def samplePolicy : FeePolicy := { cleaning := 21, service := 40, taxPercent := 10 }

/-- A completed sample checkout session referencing booking 1. -/
def sampleSession : StripeSession :=
  { status := "complete", metadataBookingId := some 1 }

/-- A sample session retrieval that always yields the completed session. -/
def sampleRetrieve : String → Option StripeSession := fun _ => some sampleSession

/-- A sample checkout session whose status is still `"open"`. -/
def sampleOpenSession : StripeSession :=
  { status := "open", metadataBookingId := some 1 }

/-- A sample session retrieval that always yields the open session. -/
def sampleRetrieveOpen : String → Option StripeSession :=
  fun _ => some sampleOpenSession

theorem mem_deleteUnpaidBookings {b : Booking} {profileId : Nat}
    {bs : List Booking} :
    b ∈ deleteUnpaidBookings profileId bs ↔
      b ∈ bs ∧ ¬(b.profileId = profileId ∧ b.paymentStatus = false) := by
  simp [deleteUnpaidBookings, List.mem_filter]
  tauto

theorem createBookingAction_shape (policy : FeePolicy)
    (profileId propertyId : Nat) (ci co : Int) (db : DB) :
    ((createBookingAction policy profileId propertyId ci co db).1.bookings
        = deleteUnpaidBookings profileId db.bookings ∧
      ∃ e, (createBookingAction policy profileId propertyId ci co db).2
        = Except.error e) ∨
    (∃ nb : Booking, nb.paymentStatus = false ∧ nb.profileId = profileId ∧
      (createBookingAction policy profileId propertyId ci co db).1.bookings
        = deleteUnpaidBookings profileId db.bookings ++ [nb] ∧
      (createBookingAction policy profileId propertyId ci co db).2
        = Except.ok nb.id) := by
  unfold createBookingAction
  by_cases h : co ≤ ci
  · exact Or.inl (by simp [h])
  · simp only [if_neg h]
    cases hp : findPropertyById propertyId db.properties with
    | none => exact Or.inl (by simp [hp])
    | some p =>
      cases hc : findConflictingBooking propertyId ci co
          (deleteUnpaidBookings profileId db.bookings) with
      | some c => exact Or.inl (by simp [hp, hc])
      | none =>
        exact Or.inr ⟨⟨db.nextId, profileId, propertyId, ci, co,
            (calculateTotals policy ci co p.price).totalNights,
            (calculateTotals policy ci co p.price).orderTotal, false⟩,
          rfl, rfl, by simp [hp, hc], by simp [hp, hc]⟩

theorem mem_setPaid {b' : Booking} {bookingId : Nat} {bs : List Booking}
    (h : b' ∈ setPaid bookingId bs) :
    b' ∈ bs ∨ ∃ b ∈ bs, b.paymentStatus = false ∧
      b' = { b with paymentStatus := true } := by
  obtain ⟨b, hb, rfl⟩ := List.mem_map.mp h
  by_cases hid : b.id == bookingId
  · by_cases hpaid : b.paymentStatus
    · left
      have : ({ b with paymentStatus := true } : Booking) = b := by
        cases b; simp_all
      simp only [hid, if_pos rfl]
      simpa [hid, this] using hb
    · right
      exact ⟨b, hb, by simpa using hpaid, by simp [hid]⟩
  · left
    simpa [hid] using hb

theorem confirmPaymentGET_shape (sessionId : Option String)
    (retrieve : String → Option StripeSession) (db : DB) :
    (confirmPaymentGET sessionId retrieve db).1 = db ∨
    ∃ bid b, findBookingById bid db.bookings = some b ∧
      b.paymentStatus = false ∧
      (confirmPaymentGET sessionId retrieve db).1
        = { db with bookings := setPaid b.id db.bookings } := by
  unfold confirmPaymentGET
  split
  · exact Or.inl rfl
  · split
    · exact Or.inl rfl
    · split
      · exact Or.inl rfl
      · split
        · exact Or.inl rfl
        · split
          · exact Or.inl rfl
          · split
            · exact Or.inl rfl
            · rename_i booking hfind hpaid
              exact Or.inr ⟨_, booking, hfind, by simpa using hpaid, rfl⟩

/-- **C1** The three-clause conflict test used by booking creation agrees
with the single half-open overlap test on every pair of non-empty
half-open ranges; in particular an existing booking `[10, 15)` does not
conflict with candidate `[15, 20)` but does conflict with `[12, 18)`. -/
theorem threeClauseConflict_eq_halfOpenOverlap :
    (∀ eci eco ci co : Int, eci < eco → ci < co →
      threeClauseConflict eci eco ci co = halfOpenOverlap eci eco ci co) ∧
    threeClauseConflict 10 15 15 20 = false ∧
    threeClauseConflict 10 15 12 18 = true := by
  refine ⟨?_, by decide, by decide⟩
  intro eci eco ci co hne hnc
  rw [Bool.eq_iff_iff]
  simp only [threeClauseConflict, halfOpenOverlap, Bool.or_eq_true,
    Bool.and_eq_true, decide_eq_true_eq]
  omega

theorem threeClauseConflict_eq_halfOpenOverlap_witness :
    (10 : Int) < 15 ∧ (12 : Int) < 18 ∧
      threeClauseConflict 10 15 12 18 = halfOpenOverlap 10 15 12 18 :=
  ⟨by decide, by decide,
    threeClauseConflict_eq_halfOpenOverlap.1 10 15 12 18 (by decide) (by decide)⟩

/-- **C2** When the session is completed and its metadata references a
booking whose `paymentStatus` is already `true`, the confirm handler
performs no write (the store is returned unchanged) and the caller-visible
outcome is the success redirect, so a repeated call with the same
completed session is a no-op success. -/
theorem confirmPayment_idempotent_on_confirmed (sid : String)
    (retrieve : String → Option StripeSession) (s : StripeSession)
    (bid : Nat) (db : DB) (b : Booking)
    (hr : retrieve sid = some s)
    (hm : s.metadataBookingId = some bid)
    (hs : s.status = "complete")
    (hb : findBookingById bid db.bookings = some b)
    (hp : b.paymentStatus = true) :
    confirmPaymentGET (some sid) retrieve db = (db, ConfirmOutcome.success) := by
  unfold confirmPaymentGET
  simp [hr, hm, hs, hb, hp]

theorem confirmPayment_idempotent_on_confirmed_witness :
    confirmPaymentGET (some "sess") sampleRetrieve sampleDB
      = (sampleDB, ConfirmOutcome.success) :=
  confirmPayment_idempotent_on_confirmed "sess" sampleRetrieve sampleSession 1
    sampleDB sampleBookingPaid rfl rfl rfl (by decide) rfl

/-- **C3** `paymentStatus` is never reversed and the confirm handler's
guarded update is the only write that changes it: the store after
`createBookingAction` is exactly the cleanup filter of the input store —
a sublist of the input, so every kept record, in particular every paid
one, is carried over unchanged — plus at most one fresh pending booking
with `paymentStatus = false` (neither the cleanup nor the insert mutates
any stored flag); and every booking in the store after the confirm
handler is either an unchanged booking of the input store or an input
booking whose `paymentStatus` was `false` and has been set to `true`.
So no operation sets a `true` flag back to `false`. -/
theorem paymentStatus_monotone (policy : FeePolicy)
    (profileId propertyId : Nat) (ci co : Int) (sessionId : Option String)
    (retrieve : String → Option StripeSession) (db : DB) :
    ((createBookingAction policy profileId propertyId ci co db).1.bookings
        = deleteUnpaidBookings profileId db.bookings ∨
      ∃ nb, nb.paymentStatus = false ∧
        (createBookingAction policy profileId propertyId ci co db).1.bookings
          = deleteUnpaidBookings profileId db.bookings ++ [nb]) ∧
    List.Sublist (deleteUnpaidBookings profileId db.bookings) db.bookings ∧
    (∀ b' ∈ (confirmPaymentGET sessionId retrieve db).1.bookings,
        b' ∈ db.bookings ∨ ∃ b ∈ db.bookings, b.paymentStatus = false ∧
          b' = { b with paymentStatus := true }) := by
  refine ⟨?_, ?_, ?_⟩
  · rcases createBookingAction_shape policy profileId propertyId ci co db with
      ⟨heq, -⟩ | ⟨nb, hnb, -, heq, -⟩
    · exact Or.inl heq
    · exact Or.inr ⟨nb, hnb, heq⟩
  · unfold deleteUnpaidBookings
    exact List.filter_sublist _
  · intro b' hb'
    rcases confirmPaymentGET_shape sessionId retrieve db with heq |
      ⟨bid, b, hfind, hpaid, heq⟩
    · rw [heq] at hb'
      exact Or.inl hb'
    · rw [heq] at hb'
      rcases mem_setPaid hb' with hmem | ⟨b0, hb0, hb0p, hb0e⟩
      · exact Or.inl hmem
      · exact Or.inr ⟨b0, hb0, hb0p, hb0e⟩

theorem paymentStatus_monotone_witness :
    ({ sampleBookingUnpaid with paymentStatus := true } : Booking)
        ∈ sampleDB.bookings ∨
      ∃ b ∈ sampleDB.bookings, b.paymentStatus = false ∧
        ({ sampleBookingUnpaid with paymentStatus := true } : Booking)
          = { b with paymentStatus := true } :=
  (paymentStatus_monotone samplePolicy 7 3 10 12 (some "sess")
    (fun _ => some { status := "complete", metadataBookingId := some 2 })
    sampleDB).2.2 { sampleBookingUnpaid with paymentStatus := true } (by decide)

/-- **C4** When the retrieved session's status is anything other than
`"complete"`, the confirm handler fails and issues no write: the store is
returned exactly as it was, so the referenced booking keeps
`paymentStatus = false` and all of its other fields. -/
theorem confirmPayment_incomplete_session_no_write (sid : String)
    (retrieve : String → Option StripeSession) (s : StripeSession) (db : DB)
    (hr : retrieve sid = some s)
    (hs : s.status ≠ "complete") :
    confirmPaymentGET (some sid) retrieve db = (db, ConfirmOutcome.failure) := by
  unfold confirmPaymentGET
  cases hm : s.metadataBookingId with
  | none => simp [hr, hm]
  | some bid => simp [hr, hm, hs]

theorem confirmPayment_incomplete_session_no_write_witness :
    confirmPaymentGET (some "sess") sampleRetrieveOpen sampleDB
      = (sampleDB, ConfirmOutcome.failure) :=
  confirmPayment_incomplete_session_no_write "sess" sampleRetrieveOpen
    sampleOpenSession sampleDB rfl (by decide)

/-- **C5** The cleanup of the caller's unpaid bookings is unconditional
and yields the starting store of every later step: the cleaned list drops
every unpaid booking of the profile, and whatever the outcome, the
bookings surviving from the input store are exactly the cleaned list
(plus at most the one new pending booking on success); in particular on
every failure, including the date-range validation that runs next, the
store is exactly the cleaned store. -/
theorem createBooking_cleanup_unconditional (policy : FeePolicy)
    (profileId propertyId : Nat) (ci co : Int) (db : DB) :
    (∀ b ∈ db.bookings, b.profileId = profileId → b.paymentStatus = false →
        b ∉ deleteUnpaidBookings profileId db.bookings) ∧
    ((createBookingAction policy profileId propertyId ci co db).1.bookings
        = deleteUnpaidBookings profileId db.bookings ∨
      ∃ nb, (createBookingAction policy profileId propertyId ci co db).1.bookings
        = deleteUnpaidBookings profileId db.bookings ++ [nb]) ∧
    (∀ e, (createBookingAction policy profileId propertyId ci co db).2
        = Except.error e →
      (createBookingAction policy profileId propertyId ci co db).1.bookings
        = deleteUnpaidBookings profileId db.bookings) := by
  refine ⟨?_, ?_, ?_⟩
  · intro b _ hpid hunpaid hmem
    exact (mem_deleteUnpaidBookings.mp hmem).2 ⟨hpid, hunpaid⟩
  · rcases createBookingAction_shape policy profileId propertyId ci co db with
      ⟨heq, -⟩ | ⟨nb, -, -, heq, -⟩
    · exact Or.inl heq
    · exact Or.inr ⟨nb, heq⟩
  · intro e he
    rcases createBookingAction_shape policy profileId propertyId ci co db with
      ⟨heq, -⟩ | ⟨nb, -, -, -, hok⟩
    · exact heq
    · rw [hok] at he
      cases he

theorem createBooking_cleanup_unconditional_witness :
    sampleBookingUnpaid ∉ deleteUnpaidBookings 7 sampleDB.bookings :=
  (createBooking_cleanup_unconditional samplePolicy 7 3 10 12 sampleDB).1
    sampleBookingUnpaid (by decide) rfl rfl

/-- **C6** A call with `checkOut ≤ checkIn` fails with the validation
failure kind and persists no booking (the store carries only the effect of
the cleanup); more generally every failing outcome leaves the store with
no new booking persisted. -/
theorem createBooking_validation_short_circuit (policy : FeePolicy)
    (profileId propertyId : Nat) (ci co : Int) (db : DB) :
    (co ≤ ci →
      createBookingAction policy profileId propertyId ci co db
        = ({ db with bookings := deleteUnpaidBookings profileId db.bookings },
            Except.error BookingError.validation)) ∧
    (∀ e, (createBookingAction policy profileId propertyId ci co db).2
        = Except.error e →
      (createBookingAction policy profileId propertyId ci co db).1.bookings
        = deleteUnpaidBookings profileId db.bookings) := by
  constructor
  · intro h
    unfold createBookingAction
    simp [h]
  · intro e he
    rcases createBookingAction_shape policy profileId propertyId ci co db with
      ⟨heq, -⟩ | ⟨nb, -, -, -, hok⟩
    · exact heq
    · rw [hok] at he
      cases he

theorem createBooking_validation_short_circuit_witness :
    createBookingAction samplePolicy 7 3 12 12 sampleDB
      = ({ sampleDB with bookings := deleteUnpaidBookings 7 sampleDB.bookings },
          Except.error BookingError.validation) :=
  (createBooking_validation_short_circuit samplePolicy 7 3 12 12 sampleDB).1
    (by decide)

/-- **C7** The payment-session handler rejects an already-paid booking
with the already-paid failure and a booking with non-positive
`orderTotal` with the invalid-total failure, and a checkout request is
only ever issued (`.ok`) for an unpaid booking with positive total, so in
both rejection cases no provider call is made. -/
theorem createPaymentSession_rejects_early (o : String) (bid : Nat)
    (db : DB) (b : Booking)
    (hb : findBookingById bid db.bookings = some b) :
    (b.paymentStatus = true →
      createPaymentSession (some o) (some bid) db
        = Except.error PaymentApiError.alreadyPaid) ∧
    (b.paymentStatus = false → b.orderTotal ≤ 0 →
      createPaymentSession (some o) (some bid) db
        = Except.error PaymentApiError.invalidTotal) ∧
    (∀ r, createPaymentSession (some o) (some bid) db = Except.ok r →
      b.paymentStatus = false ∧ 0 < b.orderTotal) := by
  refine ⟨?_, ?_, ?_⟩
  · intro hp
    unfold createPaymentSession
    simp [hb, hp]
  · intro hp ht
    unfold createPaymentSession
    simp [hb, hp, ht]
  · intro r hr
    unfold createPaymentSession at hr
    simp only [hb] at hr
    by_cases hp : b.paymentStatus
    · simp [hp] at hr
    · by_cases ht : b.orderTotal ≤ 0
      · simp [hp, ht] at hr
      · exact ⟨by simpa using hp, by omega⟩

theorem createPaymentSession_rejects_early_witness :
    createPaymentSession (some "origin") (some 1) sampleDB
      = Except.error PaymentApiError.alreadyPaid :=
  (createPaymentSession_rejects_early "origin" 1 sampleDB sampleBookingPaid
    (by decide)).1 rfl

/-- **C8** Modelled from the spec (the Totals Calculator's file is not
among the available sources): for a nonnegative fee policy and valid
input, `totalNights` is the whole-day length of the range, `subTotal` is
`totalNights * price`, `orderTotal` is at least `subTotal`, and the
scenario with price 100 over the three-day range from day 19723
(2024-01-01) to day 19726 (2024-01-04) yields 3 nights and subtotal
300. -/
theorem calculateTotals_spec (policy : FeePolicy) (ci co price : Int)
    (hcl : 0 ≤ policy.cleaning) (hsv : 0 ≤ policy.service)
    (htx : 0 ≤ policy.taxPercent) (hd : ci < co) (hp : 0 < price) :
    (calculateTotals policy ci co price).totalNights = co - ci ∧
    (calculateTotals policy ci co price).subTotal = (co - ci) * price ∧
    (calculateTotals policy ci co price).subTotal
      ≤ (calculateTotals policy ci co price).orderTotal ∧
    (calculateTotals policy 19723 19726 100).totalNights = 3 ∧
    (calculateTotals policy 19723 19726 100).subTotal = 300 := by
  have hsub : 0 ≤ (co - ci) * price := mul_nonneg (by omega) (le_of_lt hp)
  have hbase : 0 ≤ (co - ci) * price + policy.cleaning + policy.service := by
    linarith
  have htax : 0 ≤ ((co - ci) * price + policy.cleaning + policy.service)
      * policy.taxPercent / 100 :=
    Int.ediv_nonneg (mul_nonneg hbase htx) (by norm_num)
  refine ⟨rfl, rfl, ?_, by norm_num [calculateTotals],
    by norm_num [calculateTotals]⟩
  show (co - ci) * price ≤ (co - ci) * price + policy.cleaning + policy.service
    + ((co - ci) * price + policy.cleaning + policy.service)
      * policy.taxPercent / 100
  linarith

theorem calculateTotals_spec_witness :
    (calculateTotals samplePolicy 19723 19726 100).totalNights
        = 19726 - 19723 ∧
    (calculateTotals samplePolicy 19723 19726 100).subTotal
        = (19726 - 19723) * 100 ∧
    (calculateTotals samplePolicy 19723 19726 100).subTotal
        ≤ (calculateTotals samplePolicy 19723 19726 100).orderTotal ∧
    (calculateTotals samplePolicy 19723 19726 100).totalNights = 3 ∧
    (calculateTotals samplePolicy 19723 19726 100).subTotal = 300 :=
  calculateTotals_spec samplePolicy 19723 19726 100 (by decide) (by decide)
    (by decide) (by decide) (by decide)

/-- **C9** When the payment-session handler succeeds on an unpaid booking
with positive total, the checkout request it issues to the provider
charges exactly `100 * orderTotal` in the provider's minor unit for its
single line item and carries exactly the booking's id as the `bookingId`
metadata. -/
theorem createPaymentSession_charge_amount (o : String) (bid : Nat)
    (db : DB) (b : Booking)
    (hb : findBookingById bid db.bookings = some b)
    (hp : b.paymentStatus = false)
    (ht : 0 < b.orderTotal) :
    createPaymentSession (some o) (some bid) db
      = Except.ok { metadataBookingId := b.id,
                    unitAmount := 100 * b.orderTotal,
                    quantity := 1 } := by
  unfold createPaymentSession
  simp [hb, hp, not_le.mpr ht, mul_comm]

theorem createPaymentSession_charge_amount_witness :
    createPaymentSession (some "origin") (some 2) sampleDB
      = Except.ok { metadataBookingId := sampleBookingUnpaid.id,
                    unitAmount := 100 * sampleBookingUnpaid.orderTotal,
                    quantity := 1 } :=
  createPaymentSession_charge_amount "origin" 2 sampleDB sampleBookingUnpaid
    (by decide) rfl (by decide)

/-- **C10** The cleanup of `createBookingAction` deletes only the calling
profile's unpaid bookings: every booking of the input store that is paid
or owned by another profile is still in the store after the call,
whatever its outcome. -/
theorem createBooking_cleanup_frame (policy : FeePolicy)
    (profileId propertyId : Nat) (ci co : Int) (db : DB) :
    ∀ b ∈ db.bookings, (b.paymentStatus = true ∨ b.profileId ≠ profileId) →
      b ∈ (createBookingAction policy profileId propertyId ci co db).1.bookings := by
  intro b hmem hcond
  have hkeep : b ∈ deleteUnpaidBookings profileId db.bookings := by
    refine mem_deleteUnpaidBookings.mpr ⟨hmem, ?_⟩
    rintro ⟨hpid, hunpaid⟩
    rcases hcond with h | h
    · rw [h] at hunpaid
      cases hunpaid
    · exact h hpid
  rcases createBookingAction_shape policy profileId propertyId ci co db with
    ⟨heq, -⟩ | ⟨nb, -, -, heq, -⟩
  · rw [heq]
    exact hkeep
  · rw [heq]
    exact List.mem_append_left _ hkeep

theorem createBooking_cleanup_frame_witness :
    sampleBookingPaid ∈
      (createBookingAction samplePolicy 7 3 10 12 sampleDB).1.bookings :=
  createBooking_cleanup_frame samplePolicy 7 3 10 12 sampleDB sampleBookingPaid
    (by decide) (Or.inl rfl)

end NomadLiving
